import Mathlib

/-!
Shallow embedding of the easy-vuln-scanner core logic: the scan simulator,
URL validation, history bookkeeping and the aggregation rules, translated from
the SecurityScanner, ScanResults and ScanHistory components.
-/

/-- Severity tier of a finding, from the Vulnerability interface. -/
inductive Severity where
  | critical
  | high
  | medium
  | low
deriving DecidableEq, Repr

/-- A vulnerability record, from the Vulnerability interface. -/
structure Vulnerability where
  id : String
  type : String
  severity : Severity
  title : String
  description : String
  recommendation : String
  details : Option String
deriving DecidableEq, Repr

/-- The output record of one simulated scan, from the ScanResult interface.
The JS timestamp is modelled as a natural number of milliseconds and the
constant float duration 4.8 as the rational 48/10. -/
structure ScanResult where
  id : String
  url : String
  timestamp : Nat
  overallScore : Int
  vulnerabilities : List Vulnerability
  scanDuration : Rat
deriving DecidableEq, Repr

/-- The static catalog MOCK_VULNERABILITIES, verbatim from the source. -/
def MOCK_VULNERABILITIES : List Vulnerability :=
  [ { id := "1"
    , type := "SSL/TLS"
    , severity := Severity.medium
    , title := "Weak SSL/TLS Configuration"
    , description := "The website uses older TLS protocols that may be vulnerable."
    , recommendation := "Upgrade to TLS 1.3 and disable older protocols."
    , details := some "TLS 1.0 and 1.1 detected. These versions have known security issues." }
  , { id := "2"
    , type := "Headers"
    , severity := Severity.high
    , title := "Missing Security Headers"
    , description := "Critical security headers are not implemented."
    , recommendation := "Implement Content-Security-Policy, X-Frame-Options, and HSTS headers."
    , details := some "Missing: Content-Security-Policy, X-Frame-Options, Strict-Transport-Security" }
  , { id := "3"
    , type := "XSS"
    , severity := Severity.critical
    , title := "Cross-Site Scripting Vulnerability"
    , description := "Potential XSS vulnerability detected in user input fields."
    , recommendation := "Implement proper input validation and output encoding."
    , details := some "Reflected XSS found in search parameter. Input: <script>alert(1)</script>" } ]

/-- Characters that may follow the first character of a URL scheme. -/
def isSchemeChar (c : Char) : Bool :=
  c.isAlphanum || c = '+' || c = '-' || c = '.'

/-- Splits a character list at the first colon, keeping only scheme characters
before it; fails when no colon is reached or a non-scheme character appears. -/
def takeScheme : List Char → Option (List Char × List Char)
  | [] => none
  | c :: cs =>
    if c = ':' then some ([], cs)
    else if isSchemeChar c then
      match takeScheme cs with
      | some (sch, rest) => some (c :: sch, rest)
      | none => none
    else none

/-- Schemes the URL standard treats as special and requires an authority for
(the file scheme is left in the default branch of this simplified model). -/
def specialSchemes : List String := ["http", "https", "ws", "wss", "ftp"]

/-- True at a character that terminates the host portion of an authority. -/
def isHostEnd (c : Char) : Bool :=
  c = '/' || c = '?' || c = '#' || c = ':'

/-- The components of a parsed absolute URL needed by this development. -/
structure URLParts where
  scheme : String
  host : String
deriving DecidableEq, Repr

/-- Modelled from the spec: the source calls the platform URL constructor
(new URL(url)) and reads its hostname; that parser is not part of the
repository. This models its success condition on the spec wording, a
well-formed absolute URL: a scheme (a letter followed by scheme characters)
then a colon, and for the special schemes a // authority with a non-empty
host. The scheme is lowercased as the platform does. -/
def parseURL (s : String) : Option URLParts :=
  match takeScheme s.toList with
  | none => none
  | some (sch, rest) =>
    match sch with
    | [] => none
    | c0 :: _ =>
      if c0.isAlpha then
        let scheme := String.mk (sch.map Char.toLower)
        if specialSchemes.contains scheme then
          match rest with
          | '/' :: '/' :: r =>
            let host := r.takeWhile (fun c => !(isHostEnd c))
            if host.isEmpty then none
            else some { scheme := scheme, host := String.mk host }
          | _ => none
        else some { scheme := scheme, host := "" }
      else none

/-- Models the JS String.startsWith used by validateUrl. -/
def strStartsWith (s p : String) : Bool :=
  p.toList.isPrefixOf s.toList

/-- The validateUrl function of SecurityScanner: the URL must parse and the
raw string must begin with the literal http:// or https://; a parse failure
is caught and yields false. -/
def validateUrl (url : String) : Bool :=
  match parseURL url with
  | some _ => strStartsWith url "http://" || strStartsWith url "https://"
  | none => false

/-- The hostname read off a stored URL, as ScanHistory does with
new URL(scan.url).hostname (modelled from the spec, see parseURL). -/
def urlHostname (s : String) : String :=
  match parseURL s with
  | some u => u.host
  | none => ""

/-- The score formula of simulateScan applied to a vulnerability count:
Math.max(10, 100 - count * 15). -/
def scoreOf (n : Nat) : Int :=
  max 10 (100 - 15 * (n : Int))

/-- The random vulnerability count of simulateScan,
Math.floor(Math.random() * 4) + 1, with the Math.random() value made an
explicit rational argument. -/
def drawnN (rand : Rat) : Nat :=
  (⌊rand * 4⌋ + 1).toNat

/-- The six step labels of simulateScan. -/
def scanSteps : List String :=
  [ "Checking SSL certificate..."
  , "Analyzing security headers..."
  , "Testing for XSS vulnerabilities..."
  , "Scanning for SQL injection..."
  , "Checking open ports..."
  , "Generating report..." ]

/-- The progress percentage after j of the 6 steps, ((i + 1) / 6) * 100. -/
def stepProgress (j : Nat) : Rat :=
  (j : Rat) * 100 / 6

/-- The result construction of simulateScan: draw a count from the random
value, slice that prefix off the catalog, derive the score, and fill the
record (Date.now() is the now argument; the id is its decimal string; the
duration is the constant 4.8). -/
def simulateScan (url : String) (rand : Rat) (now : Nat) : ScanResult :=
  let selectedVulns := MOCK_VULNERABILITIES.take (drawnN rand)
  { id := Nat.repr now
  , url := url
  , timestamp := now
  , overallScore := scoreOf selectedVulns.length
  , vulnerabilities := selectedVulns
  , scanDuration := 48 / 10 }

/-- Toast variants used by the scanner. -/
inductive TVariant where
  | default
  | destructive
deriving DecidableEq, Repr

/-- A toast notification payload as handed to the useToast hook. -/
structure Toast where
  title : String
  description : String
  variant : Option TVariant
  duration : Option Nat
deriving DecidableEq, Repr

/-- The per-step progress toast of simulateScan. -/
def scanningToast (step : String) : Toast :=
  { title := "Scanning...", description := step
  , variant := none, duration := some 800 }

/-- The rejection toast handleScan emits when validateUrl fails. -/
def invalidUrlToast : Toast :=
  { title := "Invalid URL"
  , description := "Please enter a valid HTTP or HTTPS URL."
  , variant := some TVariant.destructive, duration := none }

/-- The toast of the catch branch of handleScan. -/
def scanFailedToast : Toast :=
  { title := "Scan Failed"
  , description := "An error occurred during the security scan."
  , variant := some TVariant.destructive, duration := none }

/-- The completion toast of handleScan: destructive exactly when some
vulnerability of the result is critical. -/
def completeToast (r : ScanResult) : Toast :=
  { title := "Scan Complete"
  , description := "Found " ++ Nat.repr r.vulnerabilities.length ++ " potential issues."
  , variant := some (if r.vulnerabilities.any (fun v => v.severity == Severity.critical)
      then TVariant.destructive else TVariant.default)
  , duration := none }

/-- The React state of the SecurityScanner component that handleScan touches. -/
structure ScannerState where
  url : String
  isScanning : Bool
  progress : Rat
  currentResult : Option ScanResult
  scanHistory : List ScanResult
deriving DecidableEq, Repr

/-- The history update of handleScan, prev mapped to [result, ...prev.slice(0, 9)]. -/
def insertHistory (result : ScanResult) (prev : List ScanResult) : List ScanResult :=
  result :: prev.take 9

/-- The observable outcome of one handleScan invocation: the final component
state, the toasts emitted in order, and whether the scan body ran at all. -/
structure HandleScanOut where
  state : ScannerState
  toasts : List Toast
  ran : Bool
deriving DecidableEq, Repr

/-- The handleScan trigger. The asynchronous run is made explicit: rand is
the Math.random() draw, now the Date.now() clock, and fault is none for a
normal run or some k for an unexpected fault raised after k completed steps
(the catch branch). On the invalid-URL path nothing runs and the state is
untouched; otherwise the try body runs and the finally clause clears
isScanning on both exits. -/
def handleScan (st : ScannerState) (rand : Rat) (now : Nat) (fault : Option Nat) :
    HandleScanOut :=
  if validateUrl st.url then
    match fault with
    | some k =>
      { state := { st with
          isScanning := false
          progress := stepProgress (min k 6)
          currentResult := none }
      , toasts := (scanSteps.take (min k 6)).map scanningToast ++ [scanFailedToast]
      , ran := true }
    | none =>
      let result := simulateScan st.url rand now
      { state := { st with
          isScanning := false
          progress := stepProgress 6
          currentResult := some result
          scanHistory := insertHistory result st.scanHistory }
      , toasts := scanSteps.map scanningToast ++ [completeToast result]
      , ran := true }
  else
    { state := st, toasts := [invalidUrlToast], ran := false }

/-- The count of critical findings of one result, from ScanResults. -/
def criticalCount (r : ScanResult) : Nat :=
  (r.vulnerabilities.filter (fun v => v.severity == Severity.critical)).length

/-- The count of high findings of one result, from ScanResults. -/
def highCount (r : ScanResult) : Nat :=
  (r.vulnerabilities.filter (fun v => v.severity == Severity.high)).length

/-- The advisories of the Next Steps card, each carrying the count its text
cites. -/
inductive Advisory where
  | immediateAction (count : Nat)
  | highPriority (count : Nat)
  | goodPosture
deriving DecidableEq, Repr

/-- The Next Steps emission logic of ScanResults: three independently gated
blocks, in document order. -/
def advisories (r : ScanResult) : List Advisory :=
  (if 0 < criticalCount r then [Advisory.immediateAction (criticalCount r)] else []) ++
  (if 0 < highCount r then [Advisory.highPriority (highCount r)] else []) ++
  (if 80 ≤ r.overallScore then [Advisory.goodPosture] else [])

/-- The score accumulation of the history summary,
history.reduce((acc, scan) => acc + scan.overallScore, 0). -/
def sumScores (h : List ScanResult) : Int :=
  h.foldl (fun acc scan => acc + scan.overallScore) 0

/-- The average score of the history summary,
Math.round(sum / history.length), with float division and Math.round
modelled as rational division and round. -/
def avgScore (h : List ScanResult) : Int :=
  round ((sumScores h : Rat) / (h.length : Rat))

/-- The unique-site count of the history summary,
new Set(history.map(scan => new URL(scan.url).hostname)).size, the Set size
modelled as the length after duplicate removal. -/
def distinctHostnames (h : List ScanResult) : Nat :=
  ((h.map (fun scan => urlHostname scan.url)).dedup).length

lemma drawnN_cases (rand : Rat) (h0 : 0 ≤ rand) (h1 : rand < 1) :
    drawnN rand = 1 ∨ drawnN rand = 2 ∨ drawnN rand = 3 ∨ drawnN rand = 4 := by
  have hf0 : (0 : Int) ≤ ⌊rand * 4⌋ := Int.floor_nonneg.mpr (by positivity)
  have hf4 : ⌊rand * 4⌋ < 4 := by
    apply Int.floor_lt.mpr
    push_cast
    nlinarith
  unfold drawnN
  omega

lemma MOCK_length : MOCK_VULNERABILITIES.length = 3 := rfl

lemma take_MOCK_length (n : Nat) : (MOCK_VULNERABILITIES.take n).length = min n 3 := by
  rw [List.length_take, MOCK_length]

lemma simulateScan_vulns (url : String) (rand : Rat) (now : Nat) :
    (simulateScan url rand now).vulnerabilities
      = MOCK_VULNERABILITIES.take (drawnN rand) := rfl

lemma simulateScan_score (url : String) (rand : Rat) (now : Nat) :
    (simulateScan url rand now).overallScore
      = scoreOf (simulateScan url rand now).vulnerabilities.length := rfl

/-- C1 counterexample: the random value 9/10 lies in the half-open unit
interval and draws the count N = 4, yet the completed scan holds only 3
vulnerabilities, so its sequence is not the first N = 4 catalog entries. -/
theorem C1_cex :
    ((0 : Rat) ≤ 9 / 10 ∧ (9 / 10 : Rat) < 1) ∧
    drawnN (9 / 10) = 4 ∧
    (simulateScan "https://example.com" (9 / 10) 0).vulnerabilities.length = 3 ∧
    ¬ ((simulateScan "https://example.com" (9 / 10) 0).vulnerabilities.length
        = drawnN (9 / 10)) :=
  of_decide_eq_true (by with_unfolding_all rfl)

/-- C1 (amended): for every completed scan the vulnerability sequence has
length between 1 and 3 inclusive and is exactly the first min(N, 3) entries
of the static catalog in catalog order, where N is the drawn count. -/
theorem C1_amended_thm (url : String) (rand : Rat) (now : Nat)
    (h0 : 0 ≤ rand) (h1 : rand < 1) :
    1 ≤ (simulateScan url rand now).vulnerabilities.length ∧
    (simulateScan url rand now).vulnerabilities.length ≤ 3 ∧
    (simulateScan url rand now).vulnerabilities
      = MOCK_VULNERABILITIES.take (drawnN rand) ∧
    (simulateScan url rand now).vulnerabilities.length = min (drawnN rand) 3 := by
  rw [simulateScan_vulns, take_MOCK_length]
  rcases drawnN_cases rand h0 h1 with h | h | h | h <;>
    rw [h] <;> exact ⟨by norm_num, by norm_num, rfl, by norm_num⟩

/-- C1 witness: the amended statement applied at the random value 0. -/
theorem C1_w :
    1 ≤ (simulateScan "https://example.com" (mkRat 0 1) 0).vulnerabilities.length ∧
    (simulateScan "https://example.com" (mkRat 0 1) 0).vulnerabilities.length ≤ 3 ∧
    (simulateScan "https://example.com" (mkRat 0 1) 0).vulnerabilities
      = MOCK_VULNERABILITIES.take (drawnN (mkRat 0 1)) ∧
    (simulateScan "https://example.com" (mkRat 0 1) 0).vulnerabilities.length
      = min (drawnN (mkRat 0 1)) 3 :=
  C1_amended_thm "https://example.com" (mkRat 0 1) 0 (by decide) (by decide)

/-- C2 counterexample: the random value 9/10 lies in the half-open unit
interval and draws the count N = 4, yet the overall score of the completed
scan is 55, not max(10, 100 - 15 * 4) = 40. -/
theorem C2_cex :
    ((0 : Rat) ≤ 9 / 10 ∧ (9 / 10 : Rat) < 1) ∧
    drawnN (9 / 10) = 4 ∧
    (simulateScan "https://example.com" (9 / 10) 0).overallScore = 55 ∧
    ¬ ((simulateScan "https://example.com" (9 / 10) 0).overallScore
        = max 10 (100 - 15 * (drawnN (9 / 10) : Int))) :=
  of_decide_eq_true (by with_unfolding_all rfl)

/-- C2 (amended): for every drawn random count N in 1..4 the completed scan
has overall score max(10, 100 - 15 * min(N, 3)); N = 1 yields 85, N = 2
yields 70, and both N = 3 and N = 4 yield 55. -/
theorem C2_amended_thm (url : String) (rand : Rat) (now : Nat)
    (h0 : 0 ≤ rand) (h1 : rand < 1) :
    (simulateScan url rand now).overallScore
      = max 10 (100 - 15 * (min (drawnN rand) 3 : Int)) ∧
    (drawnN rand = 1 → (simulateScan url rand now).overallScore = 85) ∧
    (drawnN rand = 2 → (simulateScan url rand now).overallScore = 70) ∧
    (drawnN rand = 3 ∨ drawnN rand = 4 →
      (simulateScan url rand now).overallScore = 55) := by
  have hlen : (simulateScan url rand now).vulnerabilities.length
      = min (drawnN rand) 3 := by
    rw [simulateScan_vulns, take_MOCK_length]
  have hmain : (simulateScan url rand now).overallScore
      = max 10 (100 - 15 * (min (drawnN rand) 3 : Int)) := by
    rw [simulateScan_score, hlen]
    unfold scoreOf
    push_cast
    omega
  refine ⟨hmain, fun h => ?_, fun h => ?_, fun h => ?_⟩
  · rw [hmain, h]; norm_num
  · rw [hmain, h]; norm_num
  · rcases h with h | h <;> rw [hmain, h] <;> norm_num

/-- C2 witness: the amended statement applied at the random value 0,
where the drawn count is 1 and the score 85. -/
theorem C2_w :
    (simulateScan "https://example.com" (mkRat 0 1) 0).overallScore
      = max 10 (100 - 15 * (min (drawnN (mkRat 0 1)) 3 : Int)) ∧
    (drawnN (mkRat 0 1) = 1 →
      (simulateScan "https://example.com" (mkRat 0 1) 0).overallScore = 85) ∧
    (drawnN (mkRat 0 1) = 2 →
      (simulateScan "https://example.com" (mkRat 0 1) 0).overallScore = 70) ∧
    (drawnN (mkRat 0 1) = 3 ∨ drawnN (mkRat 0 1) = 4 →
      (simulateScan "https://example.com" (mkRat 0 1) 0).overallScore = 55) :=
  C2_amended_thm "https://example.com" (mkRat 0 1) 0 (by decide) (by decide)

/-- C3: every constructed ScanResult has overall score
max(10, 100 - 15 * length of its vulnerability sequence); that score
formula is monotonically non-increasing in the length and is clamped
below at 10. -/
theorem C3_thm :
    (∀ (url : String) (rand : Rat) (now : Nat),
      (simulateScan url rand now).overallScore
        = scoreOf (simulateScan url rand now).vulnerabilities.length) ∧
    (∀ m n : Nat, m ≤ n → scoreOf n ≤ scoreOf m) ∧
    (∀ n : Nat, 10 ≤ scoreOf n) := by
  refine ⟨fun url rand now => rfl, fun m n hmn => ?_, fun n => le_max_left 10 _⟩
  unfold scoreOf
  have : (m : Int) ≤ (n : Int) := Int.ofNat_le.mpr hmn
  exact max_le_max le_rfl (by omega)

/-- C3 witness: the score formula at a concrete scan and the monotone
clause at the concrete pair 1 and 3. -/
theorem C3_w :
    (simulateScan "https://example.com" (mkRat 0 1) 0).overallScore
      = scoreOf (simulateScan "https://example.com" (mkRat 0 1) 0).vulnerabilities.length ∧
    scoreOf 3 ≤ scoreOf 1 :=
  ⟨C3_thm.1 "https://example.com" (mkRat 0 1) 0, C3_thm.2.1 1 3 (by decide)⟩

/-- C10: the catalog holds exactly three entries, so a completed scan never
holds more than 3 vulnerabilities, its overall score is always one of 85,
70 or 55, the score is never 40, and the floor clamp of 10 is never the
active branch of the max. -/
theorem C10_thm :
    MOCK_VULNERABILITIES.length = 3 ∧
    ∀ (url : String) (rand : Rat) (now : Nat), 0 ≤ rand → rand < 1 →
      (simulateScan url rand now).vulnerabilities.length ≤ 3 ∧
      ((simulateScan url rand now).overallScore = 85 ∨
       (simulateScan url rand now).overallScore = 70 ∨
       (simulateScan url rand now).overallScore = 55) ∧
      (simulateScan url rand now).overallScore ≠ 40 ∧
      10 < 100 - 15 * ((simulateScan url rand now).vulnerabilities.length : Int) := by
  refine ⟨rfl, fun url rand now h0 h1 => ?_⟩
  rw [simulateScan_score, simulateScan_vulns, take_MOCK_length]
  rcases drawnN_cases rand h0 h1 with h | h | h | h <;>
    rw [h] <;>
      refine ⟨by norm_num, by norm_num [scoreOf], by norm_num [scoreOf], by norm_num⟩

/-- C10 witness: the scan-shape clauses applied at the random value 1/2. -/
theorem C10_w :
    (simulateScan "https://example.com" (mkRat 1 2) 0).vulnerabilities.length ≤ 3 ∧
    ((simulateScan "https://example.com" (mkRat 1 2) 0).overallScore = 85 ∨
     (simulateScan "https://example.com" (mkRat 1 2) 0).overallScore = 70 ∨
     (simulateScan "https://example.com" (mkRat 1 2) 0).overallScore = 55) ∧
    (simulateScan "https://example.com" (mkRat 1 2) 0).overallScore ≠ 40 ∧
    10 < 100 - 15 * ((simulateScan "https://example.com" (mkRat 1 2) 0).vulnerabilities.length : Int) :=
  C10_thm.2 "https://example.com" (mkRat 1 2) 0 (by decide) (by decide)

/-- C4: the URL validator accepts a string exactly when it parses as a
well-formed absolute URL and literally begins with http:// or https://;
a parse failure yields false rather than a fault; "not a url" and
"ftp://x.com" are rejected and "https://example.com" is accepted. -/
theorem C4_thm :
    (∀ s : String, validateUrl s = true ↔
      ((parseURL s).isSome = true ∧
        (strStartsWith s "http://" = true ∨ strStartsWith s "https://" = true))) ∧
    (∀ s : String, parseURL s = none → validateUrl s = false) ∧
    validateUrl "not a url" = false ∧
    validateUrl "ftp://x.com" = false ∧
    validateUrl "https://example.com" = true := by
  refine ⟨fun s => ?_, fun s h => ?_, by decide, by decide, by decide⟩
  · unfold validateUrl
    cases h : parseURL s <;> simp [h]
  · simp [validateUrl, h]

/-- C4 witness: the parse-failure clause applied at the concrete string
"not a url". -/
theorem C4_w : validateUrl "not a url" = false :=
  C4_thm.2.1 "not a url" (by decide)

/-- C5: inserting a result into the history yields at most 10 entries with
the new entry first; inserting into a history of exactly 10 entries keeps
the length at 10 and, when the entries are pairwise distinct and the new
result is fresh, the previously tenth-from-front entry is absent. -/
theorem C5_thm (r : ScanResult) (prev : List ScanResult) :
    (insertHistory r prev).length ≤ 10 ∧
    (insertHistory r prev).head? = some r ∧
    (prev.length = 10 → (insertHistory r prev).length = 10) ∧
    (prev.length = 10 → prev.Nodup → r ∉ prev →
      ∀ v, prev[9]? = some v → v ∉ insertHistory r prev) := by
  refine ⟨?_, rfl, fun hlen => ?_, fun hlen hnd hr v hv hmem => ?_⟩
  · simp only [insertHistory, List.length_cons, List.length_take]
    omega
  · simp only [insertHistory, List.length_cons, List.length_take, hlen]
    omega
  · have hvmem : v ∈ prev := List.getElem?_mem hv
    have hdrop9 : (prev.drop 9)[0]? = some v := by
      rw [List.getElem?_drop]
      exact hv
    have hvdrop : v ∈ prev.drop 9 := List.getElem?_mem hdrop9
    have hsplit : prev.take 9 ++ prev.drop 9 = prev := List.take_append_drop 9 prev
    have hnd2 : (prev.take 9 ++ prev.drop 9).Nodup := by rw [hsplit]; exact hnd
    have hdisj := List.disjoint_of_nodup_append hnd2
    rcases List.mem_cons.mp hmem with hcase | hcase
    · exact hr (hcase ▸ hvmem)
    · exact hdisj hcase hvdrop

/-- A small concrete scan record used to exercise the history bound. -/
def mkRes (i : Nat) : ScanResult :=
  { id := Nat.repr i, url := "https://example.com", timestamp := i
  , overallScore := 85, vulnerabilities := [], scanDuration := mkRat 24 5 }

/-- A concrete full history of ten pairwise distinct scan records. -/
def fullHistory : List ScanResult :=
  [ mkRes 0, mkRes 1, mkRes 2, mkRes 3, mkRes 4
  , mkRes 5, mkRes 6, mkRes 7, mkRes 8, mkRes 9 ]

/-- C5 witness: inserting a fresh record into the concrete full history
evicts its previously tenth-from-front entry. -/
theorem C5_w : mkRes 9 ∉ insertHistory (mkRes 100) fullHistory :=
  (C5_thm (mkRes 100) fullHistory).2.2.2 (by decide) (by decide) (by decide)
    (mkRes 9) (by decide)

/-- C6: when the URL fails validation, the scan trigger returns the state
untouched, never runs the scan body, and emits exactly the destructive
Invalid URL notification. -/
theorem C6_thm (st : ScannerState) (rand : Rat) (now : Nat) (fault : Option Nat)
    (h : validateUrl st.url = false) :
    handleScan st rand now fault = ⟨st, [invalidUrlToast], false⟩ ∧
    (handleScan st rand now fault).state = st ∧
    (handleScan st rand now fault).ran = false ∧
    invalidUrlToast.title = "Invalid URL" ∧
    invalidUrlToast.variant = some TVariant.destructive := by
  have heq : handleScan st rand now fault = ⟨st, [invalidUrlToast], false⟩ := by
    simp [handleScan, h]
  exact ⟨heq, by rw [heq], by rw [heq], rfl, rfl⟩

/-- A concrete component state holding an invalid URL. -/
def invalidState : ScannerState :=
  { url := "not a url", isScanning := false, progress := 0
  , currentResult := none, scanHistory := [] }

/-- C6 witness: the rejection path at the concrete state whose URL is
"not a url". -/
theorem C6_w :
    handleScan invalidState (mkRat 0 1) 0 none = ⟨invalidState, [invalidUrlToast], false⟩ ∧
    (handleScan invalidState (mkRat 0 1) 0 none).state = invalidState ∧
    (handleScan invalidState (mkRat 0 1) 0 none).ran = false ∧
    invalidUrlToast.title = "Invalid URL" ∧
    invalidUrlToast.variant = some TVariant.destructive :=
  C6_thm invalidState (mkRat 0 1) 0 none (by decide)

/-- C9: once a scan starts, every exit path of the trigger leaves the
in-progress flag cleared, and on a fault the emitted toasts end with the
destructive Scan Failed notification after the progress toasts of the
completed steps. -/
theorem C9_thm (st : ScannerState) (rand : Rat) (now : Nat) (fault : Option Nat)
    (h : validateUrl st.url = true) :
    (handleScan st rand now fault).state.isScanning = false ∧
    (handleScan st rand now fault).ran = true ∧
    (∀ k, fault = some k →
      (handleScan st rand now fault).toasts
        = (scanSteps.take (min k 6)).map scanningToast ++ [scanFailedToast]) ∧
    scanFailedToast.title = "Scan Failed" ∧
    scanFailedToast.variant = some TVariant.destructive := by
  cases fault <;> simp [handleScan, h] <;> exact ⟨rfl, rfl⟩

/-- A concrete component state holding a valid URL, mid-scan. -/
def validState : ScannerState :=
  { url := "https://example.com", isScanning := true, progress := 0
  , currentResult := none, scanHistory := [] }

/-- C9 witness: the fault exit applied at the concrete valid state with a
fault after two steps. -/
theorem C9_w :
    (handleScan validState (mkRat 0 1) 0 (some 2)).state.isScanning = false ∧
    (handleScan validState (mkRat 0 1) 0 (some 2)).ran = true ∧
    (∀ k, (some 2 : Option Nat) = some k →
      (handleScan validState (mkRat 0 1) 0 (some 2)).toasts
        = (scanSteps.take (min k 6)).map scanningToast ++ [scanFailedToast]) ∧
    scanFailedToast.title = "Scan Failed" ∧
    scanFailedToast.variant = some TVariant.destructive :=
  C9_thm validState (mkRat 0 1) 0 (some 2) (by decide)

lemma foldl_score (l : List ScanResult) (a : Int) :
    l.foldl (fun acc scan => acc + scan.overallScore) a
      = a + (l.map (fun scan => scan.overallScore)).sum := by
  induction l generalizing a with
  | nil => simp
  | cons x xs ih =>
    simp only [List.foldl_cons, List.map_cons, List.sum_cons, ih]
    ring

lemma sumScores_eq_map_sum (h : List ScanResult) :
    sumScores h = (h.map (fun scan => scan.overallScore)).sum := by
  unfold sumScores
  rw [foldl_score]
  ring

/-- C7: on any non-empty history, the average score statistic equals the
rounded mean of the stored overall scores, and the unique-site statistic
equals the cardinality of the finite set of hostnames of the stored URLs. -/
theorem C7_thm (h : List ScanResult) (hne : h ≠ []) :
    avgScore h
      = round (((h.map (fun scan => scan.overallScore)).sum : Rat) / (h.length : Rat)) ∧
    distinctHostnames h
      = ((h.map (fun scan => urlHostname scan.url)).toFinset).card := by
  constructor
  · unfold avgScore
    rw [sumScores_eq_map_sum, Int.cast_list_sum, List.map_map]
    rfl
  · unfold distinctHostnames
    rw [List.card_toFinset]

/-- Two stored results on distinct paths of one host, used to exercise the
history summary. -/
def sharedHostHistory : List ScanResult :=
  [ { id := "1", url := "https://a.com/x", timestamp := 1, overallScore := 85
    , vulnerabilities := [], scanDuration := mkRat 24 5 }
  , { id := "2", url := "https://a.com/y", timestamp := 2, overallScore := 70
    , vulnerabilities := [], scanDuration := mkRat 24 5 } ]

/-- C7 witness: the aggregation equalities at a concrete two-entry history
whose URLs share one hostname. -/
theorem C7_w :
    avgScore sharedHostHistory
      = round (((sharedHostHistory.map (fun scan => scan.overallScore)).sum : Rat)
          / (sharedHostHistory.length : Rat)) ∧
    distinctHostnames sharedHostHistory
      = ((sharedHostHistory.map (fun scan => urlHostname scan.url)).toFinset).card :=
  C7_thm sharedHostHistory (by simp [sharedHostHistory])

/-- C8: for every scan result the immediate-action advisory appears iff the
critical count is positive, the high-priority advisory appears iff the high
count is positive independently of the critical count, the good-posture
advisory appears iff the score is at least 80, at most three advisories
appear, and both three advisories at once and none at all are reachable. -/
theorem C8_thm :
    (∀ r : ScanResult,
      (Advisory.immediateAction (criticalCount r) ∈ advisories r
        ↔ 0 < criticalCount r) ∧
      (Advisory.highPriority (highCount r) ∈ advisories r ↔ 0 < highCount r) ∧
      (Advisory.goodPosture ∈ advisories r ↔ 80 ≤ r.overallScore) ∧
      (advisories r).length ≤ 3) ∧
    (∃ r : ScanResult, (advisories r).length = 3) ∧
    (∃ r : ScanResult, (advisories r).length = 0) := by
  refine ⟨fun r => ?_, ?_, ?_⟩
  · by_cases hc : 0 < criticalCount r <;> by_cases hh : 0 < highCount r <;>
      by_cases hs : 80 ≤ r.overallScore <;>
        simp [advisories, hc, hh, hs]
  · exact ⟨{ id := "t3", url := "https://example.com", timestamp := 0
           , overallScore := 85, vulnerabilities := MOCK_VULNERABILITIES.take 3
           , scanDuration := mkRat 24 5 }, by decide⟩
  · exact ⟨{ id := "t0", url := "https://example.com", timestamp := 0
           , overallScore := 50, vulnerabilities := []
           , scanDuration := mkRat 24 5 }, by decide⟩
